import Mathlib

/-!
Verification of the listing-extraction core and I/O orchestration of
`real-estate-scraper.py`, shallowly embedded in Lean.

The embedding models:
- HTML documents as a tree of nodes (`HNode`), with BeautifulSoup's
  `find_all`/`find` (recursive descendant search in document pre-order,
  matching on tag name and membership in the class list), `.text`
  (concatenated descendant strings) and attribute access;
- Python dicts produced by the extractor as insertion-ordered association
  lists (`Dict`) over `PyVal` (a string, or Python's `None`);
- the per-listing `try/except/continue` loop (`processListings`), taking the
  per-node body as a parameter of type `HNode → Except String Dict` so the
  exception behaviour of the runtime is quantified over;
- the `tenacity` `@retry(stop=stop_after_attempt(3), wait=wait_fixed(2))`
  decorator as `retryExec` (result plus number of fixed-length waits);
- `pandas.DataFrame(data).to_csv(filename, index=False)` as `csvLines`
  (columns in first-appearance order of keys) plus a functional file system;
- `send_telegram_alert`'s message construction and `main`'s orchestration as
  an effect trace.
-/

/-- An HTML node: either a text node or an element with a tag name, a list
of classes (the whitespace-split `class` attribute), other attributes, and
children. -/
inductive HNode where
  | text (s : String)
  | elem (tag : String) (classes : List String)
      (attrs : List (String × String)) (children : List HNode)

mutual

/-- All nodes of the subtree rooted at a node, in document (pre-)order,
the node itself first. -/
def HNode.allNodes : HNode → List HNode
  | .text s => [.text s]
  | .elem t c a ch => .elem t c a ch :: allNodesList ch

/-- All nodes of a forest, in document order. -/
def allNodesList : List HNode → List HNode
  | [] => []
  | n :: rest => n.allNodes ++ allNodesList rest

end

/-- The strict descendants of a node, in document order.
BeautifulSoup's `find`/`find_all` on a tag search these. -/
def HNode.descendants : HNode → List HNode
  | .text _ => []
  | .elem _ _ _ ch => allNodesList ch

mutual

/-- BeautifulSoup `.text`: the concatenation of all strings in the subtree. -/
def HNode.innerText : HNode → String
  | .text s => s
  | .elem _ _ _ ch => innerTextList ch

/-- `.text` over a forest. -/
def innerTextList : List HNode → String
  | [] => ""
  | n :: rest => n.innerText ++ innerTextList rest

end

/-- Python `str.strip()`: remove leading and trailing whitespace. -/
def pyStrip (s : String) : String :=
  String.mk
    (((s.data.dropWhile Char.isWhitespace).reverse.dropWhile
      Char.isWhitespace).reverse)

/-- Python `str.startswith(pre)`. -/
def pyStartsWith (s pre : String) : Bool :=
  pre.data.isPrefixOf s.data

/-- Does the node match `find(tag, class_=cls)`: an element with the given
tag whose class list contains `cls`? -/
def matchesTagClass (tag cls : String) : HNode → Bool
  | .text _ => false
  | .elem t classes _ _ => t == tag && classes.contains cls

/-- Does the node have the given attribute (BeautifulSoup `attr=True`
filters match on presence, whatever the value)? -/
def HNode.hasAttr (key : String) : HNode → Bool
  | .text _ => false
  | .elem _ _ attrs _ => attrs.any (fun p => p.1 == key)

/-- The value of an attribute, `tag[key]` / `tag.get(key)`. -/
def HNode.getAttr (n : HNode) (key : String) : Option String :=
  match n with
  | .text _ => none
  | .elem _ _ attrs _ => (attrs.find? (fun p => p.1 == key)).map Prod.snd

/-- `node.find_all(tag, class_=cls)`: all matching strict descendants in
document order. -/
def HNode.findAll (n : HNode) (tag cls : String) : List HNode :=
  n.descendants.filter (matchesTagClass tag cls)

/-- `node.find(tag, class_=cls)`: the first matching strict descendant,
if any. -/
def HNode.findFirst (n : HNode) (tag cls : String) : Option HNode :=
  (n.findAll tag cls).head?

/-- Does the node match a bare tag filter `find(tag)`? -/
def isTag (tag : String) : HNode → Bool
  | .text _ => false
  | .elem t _ _ _ => t == tag

/-- `node.find('a', href=True)`: the first descendant anchor element
carrying an `href` attribute, if any. -/
def HNode.findHrefAnchor (n : HNode) : Option HNode :=
  (n.descendants.filter (fun m => isTag "a" m && m.hasAttr "href")).head?

/-- A Python value as it appears in the extractor's dicts: a string, or
Python's `None`. -/
inductive PyVal where
  | str (s : String)
  | pyNone
deriving Repr, DecidableEq

/-- A Python dict, as an insertion-ordered association list (Python ≥3.7
dicts preserve insertion order, which `pandas` relies on for columns). -/
abbrev Dict := List (String × PyVal)

/-- Python `str(v)` for a value appearing in a record: strings unchanged,
`None` rendered as "None" (as an f-string would). -/
def PyVal.pyStr : PyVal → String
  | .str s => s
  | .pyNone => "None"

/-- Lines 62-67: `listing.find(tag, class_=cls).text.strip() if
listing.find(tag, class_=cls) else "N/A"` — the trimmed text of the first
matching descendant, or the sentinel when the element is absent. -/
def extractField (listing : HNode) (tag cls : String) : String :=
  match listing.findFirst tag cls with
  | some el => pyStrip el.innerText
  | none => "N/A"

/-- Lines 68-69: `bedrooms = listing.find('span', class_='housing') or
listing.find('span', class_='bedrooms')`, then
`bedrooms.text.strip() if bedrooms else "N/A"`. -/
def bedroomsField (listing : HNode) : String :=
  match listing.findFirst "span" "housing" with
  | some el => pyStrip el.innerText
  | none =>
    match listing.findFirst "span" "bedrooms" with
    | some el => pyStrip el.innerText
    | none => "N/A"

/-- Lines 71-75: `link = listing.find('a', href=True)`; when present take
its `href` and, unless it starts with "http", prepend the query URL by
plain string concatenation; when absent `link` stays Python `None`. -/
def linkField (url : String) (listing : HNode) : PyVal :=
  match listing.findHrefAnchor with
  | none => PyVal.pyNone
  | some a =>
    let href := (a.getAttr "href").getD ""
    if pyStartsWith href "http" then .str href else .str (url ++ href)

/-- Lines 62-83: the dict literal appended for one listing node, with its
five keys in the source's insertion order. -/
def extractListing (url : String) (listing : HNode) : Dict :=
  [("Title", .str (extractField listing "div" "title")),
   ("Price", .str (extractField listing "div" "price")),
   ("Location", .str (extractField listing "div" "location")),
   ("Bedrooms", .str (bedroomsField listing)),
   ("Link", linkField url listing)]

/-- Python `or` on two `find_all` result lists: an empty list is falsy, so
the left operand wins exactly when it is non-empty. -/
def pyOr (a b : List HNode) : List HNode :=
  if a.isEmpty then b else a

/-- Lines 52-54: the three-strategy fallback chain
`soup.find_all('li', class_='cl-static-search-result') or
soup.find_all('div', class_='result-row') or
soup.find_all('div', class_='cl-search-result')`. -/
def discoverListings (soup : HNode) : List HNode :=
  pyOr (soup.findAll "li" "cl-static-search-result")
    (pyOr (soup.findAll "div" "result-row")
      (soup.findAll "div" "cl-search-result"))

/-- Lines 60-86: the `for listing in listings` loop with a `try/except`
around each body: an `ok` body appends its record, an `error` body is
logged and skipped via `continue`. The body is a parameter so that any
exception behaviour of the runtime is covered. -/
def processListings (body : HNode → Except String Dict) : List HNode → List Dict
  | [] => []
  | n :: rest =>
    match body n with
    | .ok d => d :: processListings body rest
    | .error _ => processListings body rest

/-- The loop body at lines 61-83: in this embedding the field extraction is
total, so the body always succeeds with the extracted dict. -/
def listingBody (url : String) (listing : HNode) : Except String Dict :=
  .ok (extractListing url listing)

/-- Lines 51-88 after a successful fetch: discover the listing nodes via
the fallback chain and run the per-listing loop over them. -/
def scrapeExtract (url : String) (soup : HNode) : List Dict :=
  processListings (listingBody url) (discoverListings soup)

/-- The `tenacity` retry loop: `f i` is the outcome of attempt `i`
(each attempt re-runs the whole decorated function). The second argument
is the number of attempts still allowed (`stop_after_attempt`). Returns
the final outcome together with the number of fixed-length waits performed
(one wait before each re-attempt; none after the final failure, whose
error is what the caller sees). -/
def retryExec (f : Nat → Except ε α) : Nat → Nat → Except ε α × Nat
  | i, 0 => (f i, 0)
  | i, 1 => (f i, 0)
  | i, Nat.succ (Nat.succ n) =>
    match f i with
    | .ok a => (.ok a, 0)
    | .error _ =>
      let p := retryExec f (i + 1) (n + 1)
      (p.1, p.2 + 1)

/-- Line 31: `stop_after_attempt(3)`. -/
def maxAttempts : Nat := 3

/-- Line 31: `wait_fixed(2)` — the fixed wait, in time-units, between
consecutive attempts. -/
def waitSeconds : Nat := 2

/-- `@retry(stop=stop_after_attempt(3), wait=wait_fixed(2))` applied to a
fallible call: at most 3 attempts, a fixed wait between attempts. -/
def retryCall (f : Nat → Except ε α) : Except ε α × Nat :=
  retryExec f 0 maxAttempts

/-- The total time spent waiting by a retried call: `wait_fixed(2)` per
wait interval. -/
def totalWait (p : Except ε α × Nat) : Nat :=
  waitSeconds * p.2

/-- One attempt of the decorated `scrape_properties` body (lines 48-92):
the HTTP GET plus `raise_for_status` (`fetch`), then everything after the
response — parsing, logging, the extraction loop — as `post`. An
exception in either part escapes the outer `try` (which re-raises) and is
seen by the retry decorator. -/
def scrapeAttempt (fetch : Nat → Except String HNode)
    (post : HNode → Except String (List Dict)) (i : Nat) :
    Except String (List Dict) :=
  (fetch i).bind post

/-- `scrape_properties` with the post-fetch stage abstracted: the retry
decorator wraps the whole attempt, fetch included. -/
def scrapePropertiesWith (fetch : Nat → Except String HNode)
    (post : HNode → Except String (List Dict)) :
    Except String (List Dict) × Nat :=
  retryCall (scrapeAttempt fetch post)

/-- Lines 31-92, `scrape_properties(url)`: the retry-decorated pipeline
with the concrete (total) parse-and-extract stage of this embedding. -/
def scrape_properties (fetch : Nat → Except String HNode) (url : String) :
    Except String (List Dict) × Nat :=
  scrapePropertiesWith fetch (fun soup => .ok (scrapeExtract url soup))

/-- `pandas.DataFrame(data)` column inference for a list of dicts: the
union of the dicts' keys in order of first appearance (dict insertion
order is preserved). -/
def dataFrameColumns (data : List Dict) : List String :=
  data.foldl
    (fun cols d => cols ++ ((d.map Prod.fst).filter (fun k => !cols.contains k)))
    []

/-- How `to_csv` renders one cell: strings as-is, a missing value / `None`
(pandas `NaN`) as the empty string. -/
def csvCell : PyVal → String
  | .str s => s
  | .pyNone => ""

/-- Lines 103-104, `pd.DataFrame(data).to_csv(filename, index=False)`:
one header line with the inferred columns, then one line per record with
the cells in column order. -/
def csvLines (data : List Dict) : List String :=
  let cols := dataFrameColumns data
  String.intercalate "," cols ::
    data.map (fun d =>
      String.intercalate ","
        (cols.map (fun c =>
          match List.lookup c d with
          | some v => csvCell v
          | none => "")))

/-- A file system as a map from path to file content (a list of lines). -/
def FileSystem := String → Option (List String)

/-- Lines 95-109, `save_to_csv(data, filename)`: writes the CSV rendering
of `data` at `filename`, replacing whatever was there. -/
def save_to_csv (fs : FileSystem) (data : List Dict) (filename : String) :
    FileSystem :=
  fun p => if p = filename then some (csvLines data) else fs p

/-- Lines 164-169: the message block an f-string builds for one record
(extractor records always carry the five keys, so `prop[k]` is modelled by
a lookup). -/
def telegramLine (prop : Dict) : String :=
  "🏠 <b>" ++ ((List.lookup "Title" prop).getD .pyNone).pyStr ++ "</b>\n" ++
  "💵 " ++ ((List.lookup "Price" prop).getD .pyNone).pyStr ++ " | 🛏️ " ++
    ((List.lookup "Bedrooms" prop).getD .pyNone).pyStr ++ "\n" ++
  "📍 " ++ ((List.lookup "Location" prop).getD .pyNone).pyStr ++ "\n" ++
  "🔗 <a href=\x27" ++ ((List.lookup "Link" prop).getD .pyNone).pyStr ++
    "\x27>View Listing</a>\n\n"

/-- Lines 159-169 of `send_telegram_alert`: an empty record list gets the
fixed "no properties found" message; otherwise a listings message built
from the first 5 records. -/
def telegramMessage (data : List Dict) : String :=
  if data.isEmpty then "⚠️ No properties found today"
  else
    (data.take 5).foldl (fun m prop => m ++ telegramLine prop)
      "🏘️ <b>New Property Listings</b>\n\n"

/-- An externally observable action of `main`. -/
inductive Effect where
  | csvWrite (filename : String) (content : List String)
  | telegramPost (message : String)
  | logWarn (msg : String)
deriving Repr, DecidableEq

/-- Lines 200-208 of `main`, given the scraped record list: a non-empty
(truthy) list is saved to CSV then sent to Telegram (the email sink is
commented out); an empty list only logs a warning. -/
def mainEffects (properties : List Dict) : List Effect :=
  if properties.isEmpty then
    [.logWarn "No properties scraped"]
  else
    [.csvWrite "properties.csv" (csvLines properties),
     .telegramPost (telegramMessage properties)]

/-- The fixed key order of every dict the extractor emits (lines 77-83). -/
def recordKeys : List String :=
  ["Title", "Price", "Location", "Bedrooms", "Link"]

/-! Concrete fixtures used to instantiate the theorems below. -/

/-- A title div with padded text. -/
def titleDiv : HNode := .elem "div" ["title"] [] [.text " Cozy Flat "]

/-- A price div. -/
def priceDiv : HNode := .elem "div" ["price"] [] [.text "$1200"]

/-- A location div. -/
def locDiv : HNode := .elem "div" ["location"] [] [.text "Dallas"]

/-- A housing span. -/
def housingSpan : HNode := .elem "span" ["housing"] [] [.text "2br"]

/-- An anchor with a relative href. -/
def relAnchor : HNode := .elem "a" [] [("href", "/post/123")] [.text "go"]

/-- A fully populated listing node in strategy-A markup. -/
def listing0 : HNode :=
  .elem "li" ["cl-static-search-result"] []
    [titleDiv, priceDiv, locDiv, housingSpan, relAnchor]

/-- A document whose only listing is `listing0` (strategy A matches). -/
def soup0 : HNode :=
  .elem "[document]" [] []
    [.elem "html" [] [] [.elem "body" [] [] [listing0]]]

/-- The query URL of `main`. -/
def url0 : String := "https://dallas.craigslist.org/search/rea"

/-- A document where only strategy B (`div.result-row`) matches. -/
def soupB : HNode :=
  .elem "[document]" [] []
    [.elem "body" [] [] [.elem "div" ["result-row"] [] [.text "b"]]]

/-- A document where only strategy C (`div.cl-search-result`) matches. -/
def soupC : HNode :=
  .elem "[document]" [] []
    [.elem "body" [] [] [.elem "div" ["cl-search-result"] [] [.text "c"]]]

/-- A listing with none of the field elements and no anchor. -/
def emptyListing : HNode := .elem "li" ["cl-static-search-result"] [] [.text "bare"]

/-- A span of class "bedrooms" with padded text. -/
def bedroomsSpan0 : HNode := .elem "span" ["bedrooms"] [] [.text " 3br "]

/-- A listing whose only field element is a "bedrooms" span. -/
def bedroomsListing : HNode := .elem "li" [] [] [bedroomsSpan0]

/-- An anchor whose href starts with the characters "http" without being a
URL. -/
def httpfooAnchor : HNode := .elem "a" [] [("href", "httpfoo")] []

/-- A listing whose anchor href is the non-URL string "httpfoo". -/
def httpfooListing : HNode := .elem "li" [] [] [httpfooAnchor]

/-- A node on which the concrete failing loop body raises. -/
def badNode : HNode := .elem "bad" [] [] []

/-- A loop body that raises exactly on `badNode`-shaped nodes. -/
def failingBody (n : HNode) : Except String Dict :=
  if isTag "bad" n then .error "boom" else .ok []

/-- An attempt function failing on attempts 1 and 2 and succeeding on
attempt 3. -/
def attemptsThenOk (i : Nat) : Except String Nat :=
  if i = 0 then .error "e0" else if i = 1 then .error "e1" else .ok 42

/-- An attempt function failing on all three attempts, with distinct
errors so the propagated one is visible. -/
def attemptsAllFail (i : Nat) : Except String Nat :=
  if i = 0 then .error "e0" else if i = 1 then .error "e1" else .error "e2"

/-- A record with the extractor's five keys inserted in a different
order. -/
def permDict : Dict :=
  [("Price", .str "$950"), ("Title", .str "Loft"), ("Location", .str "Austin"),
   ("Bedrooms", .str "1br"), ("Link", .str "http://x")]

/-- A fetch step that succeeds on every attempt. -/
def okFetch (_ : Nat) : Except String HNode := .ok soup0

/-- A post-fetch stage (parse/extract) that raises on every attempt. -/
def failingPost (_ : HNode) : Except String (List Dict) :=
  .error "parse failure"

/-- An empty file system. -/
def emptyFS : FileSystem := fun _ => none


/-! Helper lemmas. -/

/-- The per-listing loop distributes over list append. -/
theorem processListings_append (body : HNode → Except String Dict)
    (xs ys : List HNode) :
    processListings body (xs ++ ys) =
      processListings body xs ++ processListings body ys := by
  induction xs with
  | nil => rfl
  | cons x xs ih =>
    simp only [List.cons_append, processListings]
    cases body x <;> simp [ih]

/-- With the concrete (total) body, the loop is exactly a map over the
discovered nodes. -/
theorem processListings_listingBody (url : String) (l : List HNode) :
    processListings (listingBody url) l = l.map (extractListing url) := by
  induction l with
  | nil => rfl
  | cons n rest ih => simp [processListings, listingBody, ih]

/-- Every extractor record carries exactly the five fixed keys, in the
dict literal's insertion order. -/
theorem extractListing_keys (url : String) (listing : HNode) :
    (extractListing url listing).map Prod.fst = recordKeys := rfl

/-- C1: any exception raised by the body on a single node is caught and
only that node is skipped: the batch result is the concatenation of the
results on the nodes before and after it, each record unchanged, and the
loop is total — it returns a list for every input rather than
propagating the per-node exception. -/
theorem perNode_failure_skips_only_that_node
    (body : HNode → Except String Dict) (xs ys : List HNode) (n : HNode)
    (e : String) (h : body n = .error e) :
    processListings body (xs ++ n :: ys) =
      processListings body xs ++ processListings body ys := by
  rw [processListings_append]
  simp only [processListings, h]

/-- Witness for C1 at a concrete failing node between two healthy ones. -/
theorem perNode_failure_skips_only_that_node_witness :
    processListings failingBody ([listing0] ++ badNode :: [emptyListing]) =
      processListings failingBody [listing0] ++
        processListings failingBody [emptyListing] :=
  perNode_failure_skips_only_that_node failingBody [listing0] [emptyListing]
    badNode "boom" rfl

/-- C2: node discovery is a first-non-empty-wins fallback chain — if
strategy A (li.cl-static-search-result) matches at least one node the
result is exactly A's matches; if A is empty and B (div.result-row) is
non-empty, exactly B's matches; if A and B are empty, exactly C's
(div.cl-search-result) matches. In each case the later strategies play no
role and results are never merged. -/
theorem discover_first_non_empty_wins (soup : HNode) :
    ((soup.findAll "li" "cl-static-search-result").isEmpty = false →
      discoverListings soup = soup.findAll "li" "cl-static-search-result") ∧
    ((soup.findAll "li" "cl-static-search-result").isEmpty = true →
      (soup.findAll "div" "result-row").isEmpty = false →
      discoverListings soup = soup.findAll "div" "result-row") ∧
    ((soup.findAll "li" "cl-static-search-result").isEmpty = true →
      (soup.findAll "div" "result-row").isEmpty = true →
      discoverListings soup = soup.findAll "div" "cl-search-result") := by
  refine ⟨fun h1 => ?_, fun h1 h2 => ?_, fun h1 h2 => ?_⟩
  · simp [discoverListings, pyOr, h1]
  · simp [discoverListings, pyOr, h1, h2]
  · simp [discoverListings, pyOr, h1, h2]

/-- Witness for C2: one document per strategy case. -/
theorem discover_first_non_empty_wins_witness :
    discoverListings soup0 = soup0.findAll "li" "cl-static-search-result" ∧
    discoverListings soupB = soupB.findAll "div" "result-row" ∧
    discoverListings soupC = soupC.findAll "div" "cl-search-result" :=
  ⟨(discover_first_non_empty_wins soup0).1 (by decide),
   (discover_first_non_empty_wins soupB).2.1 (by decide) (by decide),
   (discover_first_non_empty_wins soupC).2.2 (by decide) (by decide)⟩

/-- Counterexample to C3 as stated: the claim lists Link among the fields
whose backing element's absence yields the sentinel "N/A", but lines
71-75 only assign `link` when an href-bearing anchor exists and line 82
stores the unchanged Python `None` otherwise — so an anchorless listing's
Link value is `None`, not "N/A". -/
theorem link_absent_not_sentinel_counterexample :
    List.lookup "Link" (extractListing url0 emptyListing) =
      some PyVal.pyNone ∧
    List.lookup "Link" (extractListing url0 emptyListing) ≠
      some (PyVal.str "N/A") := by
  constructor
  · rfl
  · decide

/-- C3 amended: a listing lacking the element backing Title, Price,
Location, or Bedrooms yields the sentinel "N/A" for that field without
raising; the record is still emitted (one record per discovered node,
with all five keys present); Bedrooms tries a span of class "housing"
first, then "bedrooms", first present wins, else the sentinel. The Link
field is the exception: when no href-bearing anchor exists it holds
Python `None`, not the sentinel. -/
theorem missing_field_sentinel (url : String) (listing : HNode) (soup : HNode) :
    (listing.findFirst "div" "title" = none →
      List.lookup "Title" (extractListing url listing) = some (.str "N/A")) ∧
    (listing.findFirst "div" "price" = none →
      List.lookup "Price" (extractListing url listing) = some (.str "N/A")) ∧
    (listing.findFirst "div" "location" = none →
      List.lookup "Location" (extractListing url listing) = some (.str "N/A")) ∧
    (∀ el, listing.findFirst "span" "housing" = some el →
      List.lookup "Bedrooms" (extractListing url listing) =
        some (.str (pyStrip el.innerText))) ∧
    (listing.findFirst "span" "housing" = none →
      ∀ el, listing.findFirst "span" "bedrooms" = some el →
      List.lookup "Bedrooms" (extractListing url listing) =
        some (.str (pyStrip el.innerText))) ∧
    (listing.findFirst "span" "housing" = none →
      listing.findFirst "span" "bedrooms" = none →
      List.lookup "Bedrooms" (extractListing url listing) =
        some (.str "N/A")) ∧
    (listing.findHrefAnchor = none →
      List.lookup "Link" (extractListing url listing) = some PyVal.pyNone) ∧
    (extractListing url listing).map Prod.fst = recordKeys ∧
    (scrapeExtract url soup).length = (discoverListings soup).length := by
  refine ⟨fun h => ?_, fun h => ?_, fun h => ?_, fun el h => ?_,
    fun h el h2 => ?_, fun h h2 => ?_, fun h => ?_,
    extractListing_keys url listing, ?_⟩
  · simp [extractListing, extractField, h, List.lookup]
  · simp [extractListing, extractField, h, List.lookup]
  · simp [extractListing, extractField, h, List.lookup]
  · simp [extractListing, bedroomsField, h, List.lookup]
  · simp [extractListing, bedroomsField, h, h2, List.lookup]
  · simp [extractListing, bedroomsField, h, h2, List.lookup]
  · simp [extractListing, linkField, h, List.lookup]
  · simp [scrapeExtract, processListings_listingBody]

/-- Witness for C3 at a listing whose only field element is a "bedrooms"
span and which has no anchor: the three div-backed fields degrade to the
sentinel, Bedrooms takes the second-choice span, Link holds `None`, and
the record still has all five keys. -/
theorem missing_field_sentinel_witness :
    List.lookup "Title" (extractListing url0 bedroomsListing) =
      some (.str "N/A") ∧
    List.lookup "Price" (extractListing url0 bedroomsListing) =
      some (.str "N/A") ∧
    List.lookup "Location" (extractListing url0 bedroomsListing) =
      some (.str "N/A") ∧
    List.lookup "Bedrooms" (extractListing url0 bedroomsListing) =
      some (.str "3br") ∧
    List.lookup "Link" (extractListing url0 bedroomsListing) =
      some PyVal.pyNone ∧
    (extractListing url0 bedroomsListing).map Prod.fst = recordKeys :=
  ⟨(missing_field_sentinel url0 bedroomsListing soup0).1 rfl,
   (missing_field_sentinel url0 bedroomsListing soup0).2.1 rfl,
   (missing_field_sentinel url0 bedroomsListing soup0).2.2.1 rfl,
   (missing_field_sentinel url0 bedroomsListing soup0).2.2.2.2.1 rfl
     bedroomsSpan0 rfl,
   (missing_field_sentinel url0 bedroomsListing soup0).2.2.2.2.2.2.1 rfl,
   (missing_field_sentinel url0 bedroomsListing soup0).2.2.2.2.2.2.2.1⟩

/-- C4: when the first href-bearing anchor of a listing has an href not
starting with "http", the Link field is the naive string concatenation of
the query URL and the href — no path-aware resolution. -/
theorem relative_link_naive_concat (url : String) (listing a : HNode)
    (h : String) (ha : listing.findHrefAnchor = some a)
    (hh : a.getAttr "href" = some h)
    (hp : pyStartsWith h "http" = false) :
    List.lookup "Link" (extractListing url listing) = some (.str (url ++ h)) := by
  simp [extractListing, linkField, ha, hh, hp, List.lookup]

/-- Witness for C4: href "/post/123" against the craigslist search URL
yields exactly the literal concatenation. -/
theorem relative_link_naive_concat_witness :
    List.lookup "Link" (extractListing url0 listing0) =
      some (.str "https://dallas.craigslist.org/search/rea/post/123") :=
  relative_link_naive_concat url0 listing0 relAnchor "/post/123" rfl rfl rfl

/-- C10: the absolute-URL test is a plain four-character string-prefix
check — any href starting with the characters "http", URL or not, is kept
unchanged; and a listing with no href-bearing anchor gets Python `None`
as its Link value, which is not the sentinel "N/A". -/
theorem link_prefix_check_and_absent_none (url : String) (listing : HNode) :
    (∀ a h, listing.findHrefAnchor = some a → a.getAttr "href" = some h →
      pyStartsWith h "http" = true →
      List.lookup "Link" (extractListing url listing) = some (.str h)) ∧
    (listing.findHrefAnchor = none →
      List.lookup "Link" (extractListing url listing) = some PyVal.pyNone) ∧
    PyVal.pyNone ≠ PyVal.str "N/A" := by
  refine ⟨fun a h ha hh hp => ?_, fun ha => ?_, by simp⟩
  · simp [extractListing, linkField, ha, hh, hp, List.lookup]
  · simp [extractListing, linkField, ha, List.lookup]

/-- Witness for C10: the non-URL href "httpfoo" passes the prefix check
and is kept verbatim; an anchorless listing gets `None`. -/
theorem link_prefix_check_and_absent_none_witness :
    List.lookup "Link" (extractListing url0 httpfooListing) =
      some (.str "httpfoo") ∧
    List.lookup "Link" (extractListing url0 emptyListing) =
      some PyVal.pyNone :=
  ⟨(link_prefix_check_and_absent_none url0 httpfooListing).1 httpfooAnchor
     "httpfoo" rfl rfl rfl,
   (link_prefix_check_and_absent_none url0 emptyListing).2.1 rfl⟩

/-- C5: the retried call makes at most 3 attempts with a fixed 2-unit wait
between them — its outcome depends only on the first three attempt
results; failures on attempts 1 and 2 followed by success on attempt 3
give that success with exactly 2 wait intervals (2·2 time-units) and no
error; three failures propagate the last failure. -/
theorem fetch_retry_semantics {ε α : Type} (f : Nat → Except ε α) :
    (∀ e0 e1 a, f 0 = .error e0 → f 1 = .error e1 → f 2 = .ok a →
      retryCall f = (.ok a, 2) ∧
        totalWait (retryCall f) = waitSeconds * 2) ∧
    (∀ e0 e1 e2, f 0 = .error e0 → f 1 = .error e1 → f 2 = .error e2 →
      retryCall f = (.error e2, 2)) ∧
    (∀ g : Nat → Except ε α, (∀ i, i < maxAttempts → f i = g i) →
      retryCall f = retryCall g) := by
  refine ⟨fun e0 e1 a h0 h1 h2 => ?_, fun e0 e1 e2 h0 h1 h2 => ?_,
    fun g hfg => ?_⟩
  · constructor
    · simp [retryCall, maxAttempts, retryExec, h0, h1, h2]
    · simp [totalWait, retryCall, maxAttempts, retryExec, h0, h1, h2]
  · simp [retryCall, maxAttempts, retryExec, h0, h1, h2]
  · have g0 := hfg 0 (by simp [maxAttempts])
    have g1 := hfg 1 (by simp [maxAttempts])
    have g2 := hfg 2 (by simp [maxAttempts])
    simp only [retryCall, maxAttempts, retryExec, g0, g1, g2]

/-- Witness for C5: a call failing twice then succeeding, and a call
failing three times. -/
theorem fetch_retry_semantics_witness :
    retryCall attemptsThenOk = (Except.ok 42, 2) ∧
    retryCall attemptsAllFail = (Except.error "e2", 2) :=
  ⟨((fetch_retry_semantics attemptsThenOk).1 "e0" "e1" 42 rfl rfl rfl).1,
   (fetch_retry_semantics attemptsAllFail).2.1 "e0" "e1" "e2" rfl rfl rfl⟩

/-- C6: with zero extracted records the orchestrator only logs a warning —
it writes no CSV file and posts no chat message; the chat sink invoked
directly on an empty list builds the fixed "no properties found"
message. -/
theorem zero_records_skip_sinks (properties : List Dict) :
    (properties.isEmpty = true →
      mainEffects properties = [.logWarn "No properties scraped"] ∧
      (∀ fn c, Effect.csvWrite fn c ∉ mainEffects properties) ∧
      (∀ m, Effect.telegramPost m ∉ mainEffects properties)) ∧
    telegramMessage [] = "⚠️ No properties found today" := by
  refine ⟨fun h => ⟨?_, ?_, ?_⟩, rfl⟩
  · simp [mainEffects, h]
  · simp [mainEffects, h]
  · simp [mainEffects, h]

/-- Witness for C6 at the empty record list. -/
theorem zero_records_skip_sinks_witness :
    mainEffects [] = [.logWarn "No properties scraped"] ∧
    (∀ m, Effect.telegramPost m ∉ mainEffects []) :=
  ⟨((zero_records_skip_sinks []).1 rfl).1,
   ((zero_records_skip_sinks []).1 rfl).2.2⟩

/-- C8: the extractor output is exactly the in-order map of the per-node
extraction over the discovered nodes — document order, no de-duplication,
no sorting — and every emitted record has exactly the five keys Title,
Price, Location, Bedrooms, Link. -/
theorem records_five_keys_document_order (url : String) (soup : HNode) :
    scrapeExtract url soup = (discoverListings soup).map (extractListing url) ∧
    ∀ d ∈ scrapeExtract url soup, d.map Prod.fst = recordKeys := by
  refine ⟨processListings_listingBody url (discoverListings soup), ?_⟩
  intro d hd
  rw [scrapeExtract, processListings_listingBody] at hd
  obtain ⟨n, _, rfl⟩ := List.mem_map.mp hd
  exact extractListing_keys url n

/-- Witness for C8 at the concrete one-listing document. -/
theorem records_five_keys_document_order_witness :
    (extractListing url0 listing0).map Prod.fst = recordKeys :=
  (records_five_keys_document_order url0 soup0).2
    (extractListing url0 listing0) (by decide)

/-- Counterexample to C7 as stated: the CSV sink's column order follows
the key insertion order of the input dicts (pandas infers columns from the
dicts), so a record list whose dicts were built in the order Price, Title,
Location, Bedrooms, Link produces that header, not the claimed fixed
one. -/
theorem csv_column_order_counterexample :
    (csvLines [permDict]).head? = some "Price,Title,Location,Bedrooms,Link" ∧
    (csvLines [permDict]).head? ≠
      some "Title,Price,Location,Bedrooms,Link" := by
  constructor
  · rfl
  · decide

/-- The pandas column-inference fold keeps a column list equal to
`recordKeys` fixed while consuming dicts whose keys are `recordKeys`. -/
theorem foldlColumns_fixed (rest : List Dict)
    (hk : ∀ d ∈ rest, d.map Prod.fst = recordKeys) :
    rest.foldl
      (fun cols d => cols ++ ((d.map Prod.fst).filter (fun k => !cols.contains k)))
      recordKeys = recordKeys := by
  induction rest with
  | nil => rfl
  | cons d rest ih =>
    rw [List.foldl_cons]
    have hd : d.map Prod.fst = recordKeys := hk d (List.mem_cons_self d rest)
    have hstep :
        recordKeys ++ ((d.map Prod.fst).filter (fun k => !recordKeys.contains k)) =
          recordKeys := by
      rw [hd]; decide
    rw [hstep]
    exact ih (fun d' hd' => hk d' (List.mem_cons_of_mem _ hd'))

/-- Column inference on a non-empty list of dicts that all carry the
extractor's keys gives exactly those keys, in insertion order. -/
theorem dataFrameColumns_recordKeys (data : List Dict)
    (hne : data ≠ []) (hk : ∀ d ∈ data, d.map Prod.fst = recordKeys) :
    dataFrameColumns data = recordKeys := by
  match data with
  | [] => exact absurd rfl hne
  | d :: rest =>
    have hd : d.map Prod.fst = recordKeys := hk d (List.mem_cons_self d rest)
    unfold dataFrameColumns
    rw [List.foldl_cons]
    have hfirst :
        ([] : List String) ++
            ((d.map Prod.fst).filter (fun k => !([] : List String).contains k)) =
          recordKeys := by
      rw [hd]; decide
    rw [hfirst]
    exact foldlColumns_fixed rest (fun d' hd' => hk d' (List.mem_cons_of_mem _ hd'))

/-- C7 amended: the CSV sink's column order is the first-appearance order
of the input dicts' keys, not unconditionally fixed; for every non-empty
record list whose dicts carry the extractor's key order Title, Price,
Location, Bedrooms, Link — as every extractor record does — the output
has exactly that header as its first line, one further line per record,
and overwrites whatever the path held before. -/
theorem csv_columns_extractor_order (data : List Dict) (fs : FileSystem)
    (filename : String) (hne : data ≠ [])
    (hk : ∀ d ∈ data, d.map Prod.fst = recordKeys) :
    (csvLines data).head? = some "Title,Price,Location,Bedrooms,Link" ∧
    (csvLines data).length = data.length + 1 ∧
    save_to_csv fs data filename filename = some (csvLines data) := by
  refine ⟨?_, by simp [csvLines], by simp [save_to_csv]⟩
  simp only [csvLines, dataFrameColumns_recordKeys data hne hk]
  rfl

/-- Witness for the amended C7 at the extractor's output on the concrete
document, against a previously empty file system. -/
theorem csv_columns_extractor_order_witness :
    (csvLines (scrapeExtract url0 soup0)).head? =
      some "Title,Price,Location,Bedrooms,Link" ∧
    save_to_csv emptyFS (scrapeExtract url0 soup0) "properties.csv"
        "properties.csv" =
      some (csvLines (scrapeExtract url0 soup0)) :=
  ⟨(csv_columns_extractor_order (scrapeExtract url0 soup0) emptyFS
      "properties.csv" (by decide) (by decide)).1,
   (csv_columns_extractor_order (scrapeExtract url0 soup0) emptyFS
      "properties.csv" (by decide) (by decide)).2.2⟩

/-- Counterexample to C9 as stated: the retry decorator wraps the whole of
`scrape_properties`, so a failure arising after a successful HTTP response
(here: every fetch succeeds, the post-fetch parse/extract stage raises)
does trigger retries — two wait intervals elapse, i.e. the body, fetch
included, runs three times instead of once. -/
theorem retry_refetches_after_parse_failure :
    scrapePropertiesWith okFetch failingPost = (.error "parse failure", 2) ∧
    (scrapePropertiesWith okFetch failingPost).2 ≠ 0 := by
  constructor
  · rfl
  · decide

/-- C9 amended: the retry wrapper covers the entire `scrape_properties`
body — when every attempt fails, in whichever stage, the call is retried
up to 3 attempts total (2 wait intervals) and the last failure is
propagated; sinks, by contrast, are never retried: the orchestrator
performs exactly one CSV write and one chat post for a non-empty record
list. -/
theorem retry_wraps_whole_scrape (fetch : Nat → Except String HNode)
    (post : HNode → Except String (List Dict)) (e : String)
    (hall : ∀ i, scrapeAttempt fetch post i = .error e) :
    scrapePropertiesWith fetch post = (.error e, 2) ∧
    ∀ properties : List Dict, properties.isEmpty = false →
      mainEffects properties =
        [.csvWrite "properties.csv" (csvLines properties),
         .telegramPost (telegramMessage properties)] := by
  constructor
  · simp [scrapePropertiesWith, retryCall, maxAttempts, retryExec,
      hall 0, hall 1, hall 2]
  · intro properties h
    simp [mainEffects, h]

/-- Witness for the amended C9: a succeeding fetch with a failing
post-fetch stage is retried to exhaustion, and the one-record output of
the concrete document drives each sink exactly once. -/
theorem retry_wraps_whole_scrape_witness :
    scrapePropertiesWith okFetch failingPost = (.error "parse failure", 2) ∧
    mainEffects (scrapeExtract url0 soup0) =
      [.csvWrite "properties.csv" (csvLines (scrapeExtract url0 soup0)),
       .telegramPost (telegramMessage (scrapeExtract url0 soup0))] :=
  ⟨(retry_wraps_whole_scrape okFetch failingPost "parse failure"
      (fun _ => rfl)).1,
   (retry_wraps_whole_scrape okFetch failingPost "parse failure"
      (fun _ => rfl)).2 (scrapeExtract url0 soup0) (by decide)⟩
